import Mathlib

/-!
Verification development for the zuppa/zowie PDF-annotation tool.

The Lean definitions below are a shallow embedding of the Python sources:
  - src/zuppa/__main__.py     (command-line front end)
  - src/zuppa/main_body.py    (orchestrator: preflight and main work)
  - src/zowie/methods/base.py (writer-method base class with comparisons)
  - src/zuppa/methods/pdfproducer.py (PDFProducer writer method)

Pure functions become Lean functions; the effects the orchestrator performs
(network probes, stat calls, warnings, metadata writes) are recorded as an
explicit ordered event trace; Python exceptions become an explicit error type
threaded through Except.  Python strings, where character-level behaviour
matters, are modelled as lists of Unicode code points.  Parts of the
repository that are not present under src/ (the exit-code enumeration is
reproduced in the help text of src/zuppa/__main__.py; the exception classes,
the method registry and the Zotero client are described by the specification)
are modelled as indicated in their doc comments.
-/

namespace Zuppa

/-- Exit code 0: success, program completed normally (return-value table in the
help text of src/zuppa/__main__.py, lines 183-189; src/zuppa/exit_codes.py is
not under src/). -/
def ExitCode.success : Nat := 0

/-- Exit code 1: the user interrupted the program's execution. -/
def ExitCode.user_interrupt : Nat := 1

/-- Exit code 2: encountered a bad or missing value for an option. -/
def ExitCode.bad_arg : Nat := 2

/-- Exit code 3: no network detected, cannot proceed. -/
def ExitCode.no_network : Nat := 3

/-- Exit code 4: file error. -/
def ExitCode.file_error : Nat := 4

/-- Exit code 5: server error. -/
def ExitCode.server_error : Nat := 5

/-- Exit code 6: an exception or fatal error occurred. -/
def ExitCode.exception : Nat := 6

/-- Kinds of Python exception relevant to the embedded control flow.
CannotProceed and UserCancelled are modelled from the spec (§4.9;
src/zuppa/exceptions.py is not under src/): a fatal condition carrying an
exit code, and a user-cancellation condition.  The remaining constructors are
the builtin Python exception classes the embedded code can raise. -/
inductive ExcType
  | cannotProceed
  | userCancelled
  | keyboardInterrupt
  | keyError
  | typeError
  | nameError
  | otherError
deriving DecidableEq

/-- An exception instance: its class, its carried exit code (args[0] of a
CannotProceed, 0 otherwise) and its message text. -/
structure ExcInfo where
  ty : ExcType
  code : Nat
  msg : String
deriving DecidableEq

/-- The three concrete writer-method classes of the registry. -/
inductive MethodClass
  | finderComment
  | pdfSubject
  | pdfProducer
deriving DecidableEq

/-- Member names declared abstract by class WriterMethod in
src/zowie/methods/base.py lines 77-95: the property `name`, the class
property `description`, and the method `write_link`. -/
def baseAbstract : List String := ["name", "description", "write_link"]

/-- Modelled from the spec: the FinderComment and PDFSubject classes (their
source files are not under src/); §4.3-§4.5 describe them as implementing
every operation of the writer contract, and the orchestrator invokes
`write_uri` on each writer, so they are modelled as defining all of these
members. -/
def specWriterDefined : List String := ["name", "description", "write_link", "write_uri"]

/-- Member names defined by class PDFProducer in
src/zuppa/methods/pdfproducer.py: only `name` (line 30) and `write_uri`
(line 34); the abstract `description` and `write_link` are not overridden. -/
def pdfProducerDefined : List String := ["name", "write_uri"]

/-- Member names each registered class defines. -/
def definedMembers : MethodClass → List String
  | .finderComment => specWriterDefined
  | .pdfSubject => specWriterDefined
  | .pdfProducer => pdfProducerDefined

/-- Python ABC instantiation: calling a class whose set of abstract members
(inherited from WriterMethod) is not fully overridden raises TypeError;
otherwise an instance is produced. -/
def instantiate (c : MethodClass) : Except ExcInfo MethodClass :=
  if baseAbstract.all (fun m => (definedMembers c).contains m) then Except.ok c
  else Except.error ⟨ExcType.typeError, 0, "abstract methods not implemented"⟩

/-- Modelled from the spec: `methods_list()` of the method registry module
(src/zuppa/methods/__init__.py is not under src/); §4.7 - it returns all
registered names, exactly these three, in sorted alphabetical order. -/
def methods_list : List String := ["findercomment", "pdfproducer", "pdfsubject"]

/-- Modelled from the spec: the dictionary lookup KNOWN_METHODS[name] used at
src/zuppa/main_body.py line 58; §4.7 - a fixed mapping from canonical name to
the class, with exactly the three entries.  A key not present in the mapping
raises KeyError. -/
def lookupMethod (n : String) : Except ExcInfo MethodClass :=
  if n == "findercomment" then Except.ok MethodClass.finderComment
  else if n == "pdfproducer" then Except.ok MethodClass.pdfProducer
  else if n == "pdfsubject" then Except.ok MethodClass.pdfSubject
  else Except.error ⟨ExcType.keyError, 0, n⟩

/-- Embedding of the writer-construction loop in MainBody.__init__
(src/zuppa/main_body.py lines 56-59): each requested name in order is looked
up in KNOWN_METHODS and the class is called; the first exception raised
(KeyError from the lookup or TypeError from instantiating an abstract class)
propagates out of the constructor. -/
def initWriters : List String → Except ExcInfo (List MethodClass)
  | [] => Except.ok []
  | n :: rest =>
    match lookupMethod n with
    | Except.error e => Except.error e
    | Except.ok c =>
      match instantiate c with
      | Except.error e => Except.error e
      | Except.ok w =>
        match initWriters rest with
        | Except.error e => Except.error e
        | Except.ok ws => Except.ok (w :: ws)

/-- Python strings, modelled as their lists of Unicode code points. -/
def PyStr : Type := List Nat
deriving DecidableEq

/-- Conversion of a Lean string literal to its code-point list, used to name
concrete Python strings in statements. -/
def strC (s : String) : PyStr := s.data.map Char.toNat

/-- Python string comparison s1 < s2: lexicographic by code point. -/
def pyStrLt : PyStr → PyStr → Bool
  | [], [] => false
  | [], _ :: _ => true
  | _ :: _, [] => false
  | a :: as, b :: bs => if a < b then true else if b < a then false else pyStrLt as bs

/-- Embedding of WriterMethod.__eq__ (src/zowie/methods/base.py lines 55-59)
as a function of the two instances' names: equality is derived from the
string order, `not a < b and not b < a`.  (The isinstance guard is not
modelled: every registered class has a fixed distinct name, so two instances
reaching the name comparison agree in class exactly when relevant.) -/
def WriterMethod.eqPy (a b : PyStr) : Bool := !(pyStrLt a b) && !(pyStrLt b a)

/-- Embedding of WriterMethod.__lt__ (src/zowie/methods/base.py lines 66-67):
lexicographic comparison of the two names. -/
def WriterMethod.ltPy (a b : PyStr) : Bool := pyStrLt a b

/-- Embedding of WriterMethod.__ne__ (src/zowie/methods/base.py lines 62-63):
the body `not __eq__(self, other)` resolves the bare name `__eq__` in the
module scope, where no such global exists, so every evaluation raises
NameError before any name is compared. -/
def WriterMethod.nePy (_a _b : PyStr) : Except ExcInfo Bool :=
  Except.error ⟨ExcType.nameError, 0, "name __eq__ is not defined"⟩

/-- On-disk state of a PDF document as the PDFProducer method sees it: its
path, the Producer entry of its Info dictionary, and all remaining document
content abstracted into one component. -/
structure PdfFile where
  path : String
  producer : Option String
  rest : String
deriving DecidableEq

/-- Embedding of PDFProducer.write_uri (src/zuppa/methods/pdfproducer.py
lines 34-43): the document is read, Info.Producer is set to the URI on the
in-memory trailer, and the trailer is written back to the same path only when
dry_run is false.  The result is the on-disk file state after the call. -/
def PDFProducer.write_uri (file : PdfFile) (uri : String) (dry_run : Bool) : PdfFile :=
  let trailer := { file with producer := some uri }
  if !dry_run then trailer else file

/-- Python lowercasing of one code point, restricted to the ASCII range the
method names use (uppercase letters map down by 32; every other code point is
unchanged). -/
def pyLowerChar (c : Nat) : Nat := if 65 ≤ c ∧ c ≤ 90 then c + 32 else c

/-- Python str.lower() over a code-point string. -/
def pyLower (s : PyStr) : PyStr := s.map pyLowerChar

/-- Helper for pySplitComma carrying the reversed current field. -/
def pySplitCommaAux : PyStr → PyStr → List PyStr
  | [], acc => [acc.reverse]
  | c :: cs, acc =>
    if c = 44 then acc.reverse :: pySplitCommaAux cs []
    else pySplitCommaAux cs (c :: acc)

/-- Python str.split with separator a comma (code point 44): the fields
between commas, in order, empty fields kept. -/
def pySplitComma (s : PyStr) : List PyStr := pySplitCommaAux s []

/-- Sentinel default of the -m option in the signature of main
(src/zuppa/__main__.py line 56): the one-character string M. -/
def methodsSentinel : PyStr := strC "M"

/-- Embedding of the methods normalization at src/zuppa/__main__.py line 218:
left at the sentinel the effective list is exactly findercomment; otherwise
the whole given string is lowercased and then split on commas. -/
def normalizeMethods (m : PyStr) : List PyStr :=
  if m = methodsSentinel then [strC "findercomment"]
  else pySplitComma (pyLower m)

/-- Statement of the corresponding spec sentence, for comparison with
normalizeMethods: left at the sentinel the effective list is exactly
findercomment; otherwise split the given string on commas and lowercase each
name, preserving order and keeping duplicates. -/
def specNormalizeMethods (m : PyStr) : List PyStr :=
  if m = methodsSentinel then [strC "findercomment"]
  else (pySplitComma m).map pyLower

/-- The parts of the execution environment the orchestrator consults:
network reachability (commonpy network_available), the file-system queries
used during discovery and filtering (os.path.isfile, os.path.isdir, commonpy
filename_extension and files_in_directory, Path.stat().st_mtime), and the
date parser (commonpy parsed_datetime).  These live in excluded external
libraries, so they are abstracted as total functions; timestamps and parsed
cutoffs are modelled as integer instants already placed on one comparable
timeline (the timezone interpretation of line 134 of src/zuppa/main_body.py
is folded into mtime). -/
structure Env where
  network_available : Bool
  isFile : String → Bool
  isDir : String → Bool
  ext : String → String
  dirPdfs : String → List String
  mtime : String → Int
  parseDate : String → Option Int

/-- The configuration main hands to MainBody (src/zuppa/__main__.py lines
225-231), after option normalization: operands, explicit credentials (None
when left at their sentinels), the keyring flag, the raw after-date
expression, the effective method names and the dry-run flag. -/
structure Config where
  files : List String
  api_key : Option String
  user_id : Option String
  use_keyring : Bool
  after_date : Option String
  methods : List String
  dry_run : Bool

/-- Observable actions of a run, recorded in order: the reachability probe,
stat-based file-system queries, terminal warnings and messages, credential
store accesses, per-file record lookups against the remote service, and
writer invocations. -/
inductive Event
  | networkCheck
  | statFile (p : String)
  | warnNotPdf (p : String)
  | alertFatal (m : String)
  | keyringRead
  | keyringWrite
  | warnDryRunMode
  | informSummary (nf nm : Nat)
  | zoteroLookup (p : String)
  | writeUri (w : MethodClass) (p : String)
  | warnInterrupted
  | alertError (m : String)
  | informDone
deriving DecidableEq

/-- Classification: events that touch the network. -/
def Event.isNetworkAccess : Event → Bool
  | .networkCheck => true
  | .zoteroLookup _ => true
  | _ => false

/-- Classification: events that touch the file system. -/
def Event.isFileAccess : Event → Bool
  | .statFile _ => true
  | .writeUri _ _ => true
  | _ => false

/-- Classification: events that touch the credential store. -/
def Event.isKeyringAccess : Event → Bool
  | .keyringRead => true
  | .keyringWrite => true
  | _ => false

/-- Classification: events of per-file main-work processing (record lookup or
writer invocation). -/
def Event.isProcessing : Event → Bool
  | .zoteroLookup _ => true
  | .writeUri _ _ => true
  | _ => false

/-- Python truthiness of an optional string (None and the empty string are
falsy), as used by `any([self.api_key, self.user_id])` at
src/zuppa/main_body.py line 95. -/
def truthy : Option String → Bool
  | none => false
  | some s => !(s == "")

/-- Modelled from the spec: the credential-store traffic of the Zotero client
constructor (src/zuppa/zotero.py is not under src/); §4.8 - with
credential-store use enabled a stored pair is loaded and the merged pair is
written back, and with it disabled nothing is read from or written to the
credential store. -/
def zoteroStoreEvents (use_keyring : Bool) : List Event :=
  if use_keyring then [Event.keyringRead, Event.keyringWrite] else []

/-- Embedding of the operand test with startswith at src/zuppa/main_body.py
line 98: true exactly when the first character of the operand is a hyphen. -/
def startsWithHyphen (s : String) : Bool :=
  match s.data with
  | [] => false
  | c :: _ => c == '-'

/-- Embedding of the discovery loop at src/zuppa/main_body.py lines 116-125:
per operand in order, a file whose extension is exactly ".pdf" is appended;
a directory contributes its recursively found ".pdf" files; any other
operand produces a non-fatal warning and is skipped.  Each operand is probed
with stat-based predicates, recorded as one statFile event. -/
def gatherFiles (env : Env) : List String → List String × List Event
  | [] => ([], [])
  | item :: rest =>
    let r := gatherFiles env rest
    if env.isFile item && env.ext item == ".pdf" then
      (item :: r.1, Event.statFile item :: r.2)
    else if env.isDir item then
      (env.dirPdfs item ++ r.1, Event.statFile item :: r.2)
    else
      (r.1, Event.statFile item :: Event.warnNotPdf item :: r.2)

/-- Embedding of the after-date handling at src/zuppa/main_body.py lines
102-110: no option means no cutoff; otherwise the expression is parsed, and a
parse failure is a fatal bad-argument condition. -/
def afterCutoff (env : Env) : Option String → Except ExcInfo (Option Int)
  | none => Except.ok none
  | some s =>
    match env.parseDate s with
    | some t => Except.ok (some t)
    | none => Except.error ⟨ExcType.cannotProceed, ExitCode.bad_arg, "Unable to parse after_date"⟩

/-- Embedding of the retention test of the after-date filter loop at
src/zuppa/main_body.py lines 130-137: an item is kept when its last-modified
instant is at or after the cutoff.  Note the loop this feeds iterates over
`self.files` (the raw operands), not over the gathered list `self._files`. -/
def dateFilter (env : Env) (cutoff : Int) (items : List String) : List String :=
  items.filter (fun p => decide (cutoff ≤ env.mtime p))

/-- The file list preflight ends up storing in self._files: the gathered
files when no after-date filter is active, and otherwise the kept list the
filter loop at src/zuppa/main_body.py lines 128-137 computes from the raw
operands. -/
def preflightFiles (env : Env) (cfg : Config) : List String :=
  match afterCutoff env cfg.after_date with
  | Except.error _ => []
  | Except.ok none => (gatherFiles env cfg.files).1
  | Except.ok (some c) => dateFilter env c cfg.files

/-- Embedding of MainBody._do_preflight (src/zuppa/main_body.py lines
81-141), returning the ordered events it emits and either the exception it
raises or the final file list.  The checks run in source order: reachability,
requested-method validation, credential availability, hyphen operands,
after-date parsing, Zotero-client construction, discovery, date filtering,
emptiness.  When the requested-method check fails, the alert message at line
93 interpolates the name `methods`, which is not bound in that scope, so that
branch raises NameError rather than reaching the exit call of line 94. -/
def preflight (env : Env) (cfg : Config) : List Event × Except ExcInfo (List String) :=
  if !env.network_available then
    ([Event.networkCheck, Event.alertFatal "No network connection."],
     Except.error ⟨ExcType.cannotProceed, ExitCode.no_network, "No network connection."⟩)
  else if !(cfg.methods.all (fun s => methods_list.contains s)) then
    ([Event.networkCheck], Except.error ⟨ExcType.nameError, 0, "name methods is not defined"⟩)
  else if !cfg.use_keyring && !(truthy cfg.api_key || truthy cfg.user_id) then
    ([Event.networkCheck, Event.alertFatal "Need Zotero credentials if not using keyring."],
     Except.error ⟨ExcType.cannotProceed, ExitCode.bad_arg, "credentials"⟩)
  else if cfg.files.any (fun i => startsWithHyphen i) then
    ([Event.networkCheck, Event.alertFatal "Unrecognized option in arguments."],
     Except.error ⟨ExcType.cannotProceed, ExitCode.bad_arg, "operands"⟩)
  else
    match afterCutoff env cfg.after_date with
    | Except.error e =>
      ([Event.networkCheck, Event.alertFatal "Unable to parse after_date."], Except.error e)
    | Except.ok cut =>
      let zevs := zoteroStoreEvents cfg.use_keyring
      let g := gatherFiles env cfg.files
      let fevs := match cut with
        | none => []
        | some _ => cfg.files.map Event.statFile
      let final := match cut with
        | none => g.1
        | some c => dateFilter env c cfg.files
      if final.isEmpty then
        (Event.networkCheck :: zevs ++ g.2 ++ fevs
           ++ [Event.alertFatal "No PDF files to process; quitting."],
         Except.error ⟨ExcType.cannotProceed, ExitCode.bad_arg, "No PDF files to process; quitting."⟩)
      else
        (Event.networkCheck :: zevs ++ g.2 ++ fevs, Except.ok final)

/-- Embedding of MainBody._do_main_work (src/zuppa/main_body.py lines
144-156).  The warning of line 145 that no files will be modified is emitted
unconditionally: there is no `if self.dry_run` guard around it.  Then the
summary message, and per retained file in order: the record lookup against
the remote service, then one write_uri invocation per configured writer in
requested order. -/
def mainWork (cfg : Config) (writers : List MethodClass) (files : List String) : List Event :=
  Event.warnDryRunMode
    :: Event.informSummary files.length cfg.methods.length
    :: files.flatMap (fun f => Event.zoteroLookup f :: writers.map (fun w => Event.writeUri w f))

/-- Embedding of orchestrator construction and run: MainBody.__init__ builds
the writer instances (an exception there propagates out of the constructor
into the except clause of main, src/zuppa/__main__.py lines 224-236), and
run() (src/zuppa/main_body.py lines 62-72) executes preflight then main work,
catching any exception and recording it in self.exception.  The result is
the captured exception, if any, and the emitted events. -/
def mainBodyRun (env : Env) (cfg : Config) : Option ExcInfo × List Event :=
  match initWriters cfg.methods with
  | Except.error e => (some e, [])
  | Except.ok writers =>
    match preflight env cfg with
    | (evs, Except.error e) => (some e, evs)
    | (evs, Except.ok files) => (none, evs ++ mainWork cfg writers files)

/-- Embedding of the exit-code mapping at src/zuppa/__main__.py lines
240-263: a CannotProceed uses its carried exit code verbatim; a
KeyboardInterrupt or UserCancelled yields the interrupt code and a short
warning; any other exception yields the generic exception code with a fatal
alert; no exception prints the completion message and yields success. -/
def mainTail : Option ExcInfo → Nat × List Event
  | none => (ExitCode.success, [Event.informDone])
  | some e =>
    if e.ty = ExcType.cannotProceed then (e.code, [])
    else if e.ty = ExcType.keyboardInterrupt ∨ e.ty = ExcType.userCancelled then
      (ExitCode.user_interrupt, [Event.warnInterrupted])
    else (ExitCode.exception, [Event.alertError e.msg])

/-- The whole front-end run for a given environment and configuration:
orchestrator construction and run, then the exit-code mapping; the result is
the final process exit code and the full ordered event trace. -/
def zuppaMain (env : Env) (cfg : Config) : Nat × List Event :=
  let r := mainBodyRun env cfg
  let t := mainTail r.1
  (t.1, r.2 ++ t.2)

/-- Per-operand contribution of discovery to the file list: the operand
itself when it is a ".pdf" file, its recursively found PDFs when it is a
directory, nothing otherwise. -/
def operandFiles (env : Env) (item : String) : List String :=
  if env.isFile item && env.ext item == ".pdf" then [item]
  else if env.isDir item then env.dirPdfs item
  else []

/-- Per-operand contribution of discovery to the event trace: the stat
probe, plus the non-fatal warning when the operand is neither a PDF file nor
a directory. -/
def operandEvents (env : Env) (item : String) : List Event :=
  if env.isFile item && env.ext item == ".pdf" then [Event.statFile item]
  else if env.isDir item then [Event.statFile item]
  else [Event.statFile item, Event.warnNotPdf item]

/-- Stat events of the date-filter loop for a given cutoff: none when no
filter is active, one stat per raw operand when it is. -/
def cutStatEvents (cfg : Config) : Option Int → List Event
  | none => []
  | some _ => cfg.files.map Event.statFile

/-- Test whether writer construction fails on one requested name: the
registry lookup raises KeyError, or the class has unimplemented abstract
members and instantiating raises TypeError. -/
def initStepFails (n : String) : Bool :=
  match lookupMethod n with
  | Except.error _ => true
  | Except.ok c =>
    match instantiate c with
    | Except.error _ => true
    | Except.ok _ => false

/-- Environment fixture: network up, empty file system. -/
def envTriv : Env :=
  ⟨true, fun _ => false, fun _ => false, fun _ => "", fun _ => [], fun _ => 0, fun _ => none⟩

/-- Environment fixture: network up and exactly one PDF file f.pdf. -/
def envOnePdf : Env :=
  ⟨true, fun p => p == "f.pdf", fun _ => false, fun _ => ".pdf",
   fun _ => [], fun _ => 0, fun _ => none⟩

/-- Environment fixture for date filtering: one directory d holding one PDF
file d/a.pdf, every path last modified at instant 100, and every date
expression parsing to the cutoff 50 (so everything is at or after the
cutoff). -/
def envFilter : Env :=
  ⟨true,
   fun p => p == "d/a.pdf",
   fun p => p == "d",
   fun _ => ".pdf",
   fun p => if p == "d" then ["d/a.pdf"] else [],
   fun _ => 100,
   fun _ => some 50⟩

/-- Configuration fixture requesting the unregistered method name bogus. -/
def cfgBogus : Config :=
  ⟨["paper.pdf"], none, none, true, none, ["bogus"], false⟩

/-- Configuration fixture with the directory operand d and an active
after-date filter. -/
def cfgFilter : Config :=
  ⟨["d"], none, none, true, some "2023-03-01", ["findercomment"], false⟩

/-- Configuration fixture with keyring use disabled and only the API key
given explicitly. -/
def cfgKeyOnly : Config :=
  ⟨["f.pdf"], some "key123", none, false, none, ["findercomment"], false⟩

/-- Configuration fixture with keyring use disabled and neither credential
given. -/
def cfgNoCred : Config :=
  ⟨["f.pdf"], none, none, false, none, ["findercomment"], false⟩

/-- Configuration fixture whose only operand is not a PDF file and not a
directory. -/
def cfgNoPdf : Config :=
  ⟨["notes.txt"], none, none, true, none, ["findercomment"], false⟩

/-- Configuration fixture requesting the pdfproducer method. -/
def cfgPdfProd : Config :=
  ⟨["f.pdf"], none, none, true, none, ["pdfproducer"], false⟩

/-- Lowering one code point yields a comma exactly when it already was a
comma (uppercase letters land among the lowercase letters, never on 44). -/
theorem pyLowerChar_comma (c : Nat) : (pyLowerChar c = 44) = (c = 44) := by
  simp only [pyLowerChar]
  split
  · rename_i h
    simp only [eq_iff_iff]
    omega
  · rfl

/-- Lowercasing commutes with comma-splitting: splitting the lowercased
string yields the lowercased fields of splitting the original string. -/
theorem pySplitCommaAux_lower (s : PyStr) : ∀ acc : PyStr,
    pySplitCommaAux (pyLower s) (pyLower acc) = (pySplitCommaAux s acc).map pyLower := by
  induction s with
  | nil =>
    intro acc
    simp [pySplitCommaAux, pyLower, List.map_reverse]
  | cons c cs ih =>
    intro acc
    by_cases hc : c = 44
    · subst hc
      show pySplitCommaAux (pyLowerChar 44 :: pyLower cs) (pyLower acc) = _
      have h44 : pyLowerChar 44 = 44 := rfl
      rw [h44]
      show (pyLower acc).reverse :: pySplitCommaAux (pyLower cs) [] = _
      have hnil : ([] : PyStr) = pyLower [] := rfl
      rw [hnil, ih []]
      show _ = (acc.reverse :: pySplitCommaAux cs []).map pyLower
      simp [pyLower, List.map_reverse]
    · have hc2 : pyLowerChar c ≠ 44 := by
        intro hcon
        rw [pyLowerChar_comma c] at hcon
        exact hc hcon
      show pySplitCommaAux (pyLowerChar c :: pyLower cs) (pyLower acc) = _
      rw [pySplitCommaAux, if_neg hc2]
      have hstep : (pyLowerChar c :: pyLower acc) = pyLower (c :: acc) := rfl
      rw [hstep, ih (c :: acc)]
      rw [pySplitCommaAux, if_neg hc]

/-- Discovery characterization: the gathered files are the concatenated
per-operand contributions, in operand order, and the emitted events are the
concatenated per-operand probes and warnings. -/
theorem gatherFiles_eq (env : Env) (ops : List String) :
    gatherFiles env ops = (ops.flatMap (operandFiles env), ops.flatMap (operandEvents env)) := by
  induction ops with
  | nil => rfl
  | cons item rest ih =>
    simp only [gatherFiles, ih, operandFiles, operandEvents, List.flatMap_cons]
    by_cases h1 : (env.isFile item && env.ext item == ".pdf") = true
    · simp [h1]
    · by_cases h2 : env.isDir item = true
      · simp [h1, h2]
      · simp [h1, h2]

/-- Discovery emits no per-file processing events (no record lookups and no
writer invocations). -/
theorem gather_events_safe (env : Env) (ops : List String) :
    ((gatherFiles env ops).2.all (fun e => !e.isProcessing)) = true := by
  induction ops with
  | nil => rfl
  | cons item rest ih =>
    by_cases h1 : (env.isFile item && env.ext item == ".pdf") = true
    · have hg : (gatherFiles env (item :: rest)).2 =
          Event.statFile item :: (gatherFiles env rest).2 := by
        simp [gatherFiles, h1]
      rw [hg, List.all_cons, ih]
      rfl
    · by_cases h2 : env.isDir item = true
      · have hg : (gatherFiles env (item :: rest)).2 =
            Event.statFile item :: (gatherFiles env rest).2 := by
          simp [gatherFiles, h1, h2]
        rw [hg, List.all_cons, ih]
        rfl
      · have hg : (gatherFiles env (item :: rest)).2 =
            Event.statFile item :: Event.warnNotPdf item :: (gatherFiles env rest).2 := by
          simp [gatherFiles, h1, h2]
        rw [hg, List.all_cons, List.all_cons, ih]
        rfl

/-- Registry lookup either succeeds or raises KeyError for the looked-up
name. -/
theorem lookupMethod_cases (n : String) :
    (∃ c, lookupMethod n = Except.ok c) ∨
    lookupMethod n = Except.error ⟨ExcType.keyError, 0, n⟩ := by
  unfold lookupMethod
  split_ifs
  · exact Or.inl ⟨_, rfl⟩
  · exact Or.inl ⟨_, rfl⟩
  · exact Or.inl ⟨_, rfl⟩
  · exact Or.inr rfl

/-- Instantiating a registered class either succeeds or raises the
abstract-members TypeError. -/
theorem instantiate_cases (c : MethodClass) :
    instantiate c = Except.ok c ∨
    instantiate c = Except.error ⟨ExcType.typeError, 0, "abstract methods not implemented"⟩ := by
  cases c
  · exact Or.inl rfl
  · exact Or.inl rfl
  · exact Or.inr rfl

/-- When any requested name fails its construction step, the whole writer
construction of MainBody.__init__ raises, and the raised exception is a
KeyError or a TypeError (never a CannotProceed or an interruption). -/
theorem initWriters_error (names : List String) (h : names.any initStepFails = true) :
    ∃ e, initWriters names = Except.error e ∧
      (e.ty = ExcType.keyError ∨ e.ty = ExcType.typeError) := by
  induction names with
  | nil => simp at h
  | cons n rest ih =>
    rcases lookupMethod_cases n with ⟨c, hl⟩ | hl
    · rcases instantiate_cases c with hi | hi
      · have hstep : initStepFails n = false := by
          simp [initStepFails, hl, hi]
        have hr : rest.any initStepFails = true := by
          simpa [List.any_cons, hstep] using h
        rcases ih hr with ⟨e, he, hty⟩
        refine ⟨e, ?_, hty⟩
        simp [initWriters, hl, hi, he]
      · refine ⟨⟨ExcType.typeError, 0, "abstract methods not implemented"⟩, ?_, Or.inr rfl⟩
        simp [initWriters, hl, hi]
    · refine ⟨⟨ExcType.keyError, 0, n⟩, ?_, Or.inl rfl⟩
      simp [initWriters, hl]

/-- A name outside the registry's known set makes the dictionary lookup
raise KeyError. -/
theorem lookupMethod_unknown (m : String) (h : methods_list.contains m = false) :
    lookupMethod m = Except.error ⟨ExcType.keyError, 0, m⟩ := by
  simp only [methods_list, List.contains_cons, List.contains_nil,
    Bool.or_eq_false_iff] at h
  simp [lookupMethod, h.1, h.2.1, h.2.2.1]

/-- A name outside the registry's known set fails its construction step. -/
theorem initStepFails_of_unknown (m : String) (h : methods_list.contains m = false) :
    initStepFails m = true := by
  simp [initStepFails, lookupMethod_unknown m h]

/-- The front-end tail emits no per-file processing events. -/
theorem mainTail_events_safe (o : Option ExcInfo) :
    ((mainTail o).2.all (fun e => !e.isProcessing)) = true := by
  cases o with
  | none => rfl
  | some e =>
    simp only [mainTail]
    split_ifs <;> rfl

/-- Claim C1, counterexample: running with the requested method list
["bogus"] does exit before any network or file access, but with the
generic-exception exit code 6, not with the bad-argument exit code 2 the
claim states - the unknown name raises KeyError inside the orchestrator
constructor, which the front end maps to code 6. -/
theorem claim_C1_counterexample :
    (zuppaMain envTriv cfgBogus).1 = ExitCode.exception ∧
    (zuppaMain envTriv cfgBogus).1 ≠ ExitCode.bad_arg := by
  refine ⟨by decide, by decide⟩

/-- Claim C1 as amended: for every run whose requested method list contains
a name not present in the registry's known set, the process exits with the
generic-exception exit code 6 (the unknown name raises a lookup error while
the orchestrator constructor instantiates the writers), and does so before
any network access or file access occurs. -/
theorem claim_C1 (env : Env) (cfg : Config)
    (h : cfg.methods.any (fun m => !methods_list.contains m) = true) :
    (zuppaMain env cfg).1 = ExitCode.exception ∧
    ((zuppaMain env cfg).2.all (fun e => !e.isNetworkAccess && !e.isFileAccess)) = true := by
  have hany : cfg.methods.any initStepFails = true := by
    rcases List.any_eq_true.mp h with ⟨m, hm, hpm⟩
    refine List.any_eq_true.mpr ⟨m, hm, ?_⟩
    exact initStepFails_of_unknown m (by simpa using hpm)
  rcases initWriters_error cfg.methods hany with ⟨e, he, hty⟩
  have hbody : mainBodyRun env cfg = (some e, []) := by
    simp [mainBodyRun, he]
  have hne1 : ¬e.ty = ExcType.cannotProceed := by
    rcases hty with h1 | h1 <;> simp [h1]
  have hne2 : ¬(e.ty = ExcType.keyboardInterrupt ∨ e.ty = ExcType.userCancelled) := by
    rcases hty with h1 | h1 <;> simp [h1]
  have hall : zuppaMain env cfg = (ExitCode.exception, [Event.alertError e.msg]) := by
    simp [zuppaMain, hbody, mainTail, hne1, hne2]
  rw [hall]
  exact ⟨rfl, rfl⟩

/-- Claim C1, witness: the amended theorem applied to the concrete run with
requested method list ["bogus"]. -/
theorem claim_C1_witness :
    (zuppaMain envTriv cfgBogus).1 = ExitCode.exception ∧
    ((zuppaMain envTriv cfgBogus).2.all (fun e => !e.isNetworkAccess && !e.isFileAccess)) = true :=
  claim_C1 envTriv cfgBogus (by decide)

/-- Claim C2: with operand the directory d containing only d/a.pdf (all
modification instants at or after the cutoff) and an active after-date
filter, discovery produces exactly [d/a.pdf], yet preflight ends with file
list [d] - the filter loop of src/zuppa/main_body.py line 132 iterates over
the raw operands self.files instead of the discovered set self._files, so
the filtering step does not examine the set of files produced by
discovery. -/
theorem claim_C2 :
    (gatherFiles envFilter cfgFilter.files).1 = ["d/a.pdf"] ∧
    (preflight envFilter cfgFilter).2 = Except.ok ["d"] ∧
    (["d"] : List String) ≠ ["d/a.pdf"] := by
  refine ⟨by decide, rfl, by decide⟩

/-- Claim C3: two writer-method instances named pdfproducer and pdfsubject
compare unequal under the == comparison, and pdfproducer orders before
pdfsubject lexicographically, and equal names compare equal under ==; but
the != comparison does not return true - evaluating __ne__ raises NameError
because its body refers to the undefined global name __eq__
(src/zowie/methods/base.py line 63). -/
theorem claim_C3 :
    WriterMethod.nePy (strC "pdfproducer") (strC "pdfsubject") =
      Except.error ⟨ExcType.nameError, 0, "name __eq__ is not defined"⟩ ∧
    WriterMethod.eqPy (strC "pdfproducer") (strC "pdfsubject") = false ∧
    WriterMethod.ltPy (strC "pdfproducer") (strC "pdfsubject") = true ∧
    WriterMethod.eqPy (strC "pdfsubject") (strC "pdfsubject") = true := by
  refine ⟨rfl, by decide, by decide, by decide⟩

/-- Claim C4, counterexample: with credential-store use disabled, an
explicit API key but no library-owner identifier, preflight succeeds and
reaches the file list - so the preflight check does not require both
credentials, contradicting the claim. -/
theorem claim_C4_counterexample :
    cfgKeyOnly.use_keyring = false ∧ cfgKeyOnly.user_id = none ∧
    (preflight envOnePdf cfgKeyOnly).2 = Except.ok ["f.pdf"] ∧
    ((preflight envOnePdf cfgKeyOnly).1.all (fun e => !e.isKeyringAccess)) = true := by
  refine ⟨rfl, rfl, rfl, by decide⟩

/-- Claim C4 as amended: when credential-store use is disabled, the
orchestrator's preflight check requires at least one of an explicit API key
or an explicit library-owner identifier, failing fatally with the
bad-argument exit code when both are absent or empty, and nothing is read
from or written to the credential store (per the spec-modelled client). -/
theorem claim_C4 (env : Env) (cfg : Config)
    (hnet : env.network_available = true)
    (hm : cfg.methods.all (fun s => methods_list.contains s) = true)
    (hk : cfg.use_keyring = false)
    (ha : truthy cfg.api_key = false)
    (hu : truthy cfg.user_id = false) :
    (preflight env cfg).2 =
      Except.error ⟨ExcType.cannotProceed, ExitCode.bad_arg, "credentials"⟩ ∧
    zoteroStoreEvents cfg.use_keyring = [] ∧
    ((preflight env cfg).1.all (fun e => !e.isKeyringAccess)) = true := by
  have hc1 : (!env.network_available) = false := by rw [hnet]; rfl
  have hc2 : (!(cfg.methods.all fun s => methods_list.contains s)) = false := by
    rw [hm]; rfl
  have hc3 : (!cfg.use_keyring && !(truthy cfg.api_key || truthy cfg.user_id)) = true := by
    rw [hk, ha, hu]; rfl
  have hp : preflight env cfg =
      ([Event.networkCheck, Event.alertFatal "Need Zotero credentials if not using keyring."],
       Except.error ⟨ExcType.cannotProceed, ExitCode.bad_arg, "credentials"⟩) := by
    simp only [preflight, hc1, hc2, hc3, Bool.false_eq_true, if_false, if_true]
  rw [hp, hk]
  exact ⟨rfl, rfl, rfl⟩

/-- Claim C4, witness: the amended theorem applied to the concrete run with
keyring use disabled and neither credential given. -/
theorem claim_C4_witness :
    (preflight envOnePdf cfgNoCred).2 =
      Except.error ⟨ExcType.cannotProceed, ExitCode.bad_arg, "credentials"⟩ ∧
    zoteroStoreEvents cfgNoCred.use_keyring = [] ∧
    ((preflight envOnePdf cfgNoCred).1.all (fun e => !e.isKeyringAccess)) = true :=
  claim_C4 envOnePdf cfgNoCred rfl (by decide) rfl rfl rfl

/-- Claim C5: the main-work warning that no files will be modified is the
first emitted event of every run of _do_main_work, including runs whose
dry-run flag is false - the warn call at src/zuppa/main_body.py line 145 is
unconditional, so the warning is not emitted only when dry-run is
active. -/
theorem claim_C5 (cfg : Config) (writers : List MethodClass) (files : List String)
    (_h : cfg.dry_run = false) :
    (mainWork cfg writers files).head? = some Event.warnDryRunMode := rfl

/-- Claim C5, witness: the theorem applied to a concrete run whose dry-run
flag is false. -/
theorem claim_C5_witness :
    (mainWork cfgKeyOnly [MethodClass.finderComment] ["f.pdf"]).head? =
      some Event.warnDryRunMode :=
  claim_C5 cfgKeyOnly [MethodClass.finderComment] ["f.pdf"] rfl

/-- Claim C6: the front end's exit-code mapping - a fatal CannotProceed
condition yields its own carried exit code; a UserCancelled or
KeyboardInterrupt condition yields the interrupt exit code 1 with a short
warning; every other exception kind yields the generic-exception exit code 6
with a fatal alert; and the absence of a condition yields success 0 with the
completion message. -/
theorem claim_C6 :
    (∀ c m, mainTail (some ⟨ExcType.cannotProceed, c, m⟩) = (c, [])) ∧
    (∀ c m, mainTail (some ⟨ExcType.userCancelled, c, m⟩) =
      (ExitCode.user_interrupt, [Event.warnInterrupted])) ∧
    (∀ c m, mainTail (some ⟨ExcType.keyboardInterrupt, c, m⟩) =
      (ExitCode.user_interrupt, [Event.warnInterrupted])) ∧
    (∀ c m, mainTail (some ⟨ExcType.keyError, c, m⟩) =
      (ExitCode.exception, [Event.alertError m])) ∧
    (∀ c m, mainTail (some ⟨ExcType.typeError, c, m⟩) =
      (ExitCode.exception, [Event.alertError m])) ∧
    (∀ c m, mainTail (some ⟨ExcType.nameError, c, m⟩) =
      (ExitCode.exception, [Event.alertError m])) ∧
    (∀ c m, mainTail (some ⟨ExcType.otherError, c, m⟩) =
      (ExitCode.exception, [Event.alertError m])) ∧
    mainTail none = (ExitCode.success, [Event.informDone]) := by
  refine ⟨fun c m => rfl, fun c m => rfl, fun c m => rfl, fun c m => rfl,
    fun c m => rfl, fun c m => rfl, fun c m => rfl, rfl⟩

/-- Claim C7: applying the PDFProducer write operation with dry-run disabled
leaves the file's Producer field equal to exactly the given URI (any prior
value discarded) at the original path with all other content unchanged;
with dry-run enabled the on-disk file is unchanged by the call. -/
theorem claim_C7 (file : PdfFile) (uri : String) :
    (PDFProducer.write_uri file uri false).producer = some uri ∧
    (PDFProducer.write_uri file uri false).path = file.path ∧
    (PDFProducer.write_uri file uri false).rest = file.rest ∧
    PDFProducer.write_uri file uri true = file :=
  ⟨rfl, rfl, rfl, rfl⟩

/-- Claim C8: the effective method list is exactly [findercomment] when the
methods option is left at its sentinel, and otherwise it is the given string
split on commas with each name lowercased, order and duplicates preserved -
the source's lowercase-then-split at src/zuppa/__main__.py line 218 agrees
with the spec's split-then-lowercase on every input. -/
theorem claim_C8 (m : PyStr) : normalizeMethods m = specNormalizeMethods m := by
  by_cases h : m = methodsSentinel
  · simp [normalizeMethods, specNormalizeMethods, h]
  · simp only [normalizeMethods, specNormalizeMethods, if_neg h]
    have := pySplitCommaAux_lower m []
    simpa [pySplitComma, pyLower] using this

/-- Claim C9: discovery includes each operand that is a ".pdf" file, the
recursively found ".pdf" files of each directory operand, and warns about
and skips every other operand; and when no files remain after discovery and
filtering, preflight fails fatally with the bad-argument exit code and no
file is processed anywhere in the run (no record lookup and no writer
invocation appears in the trace). -/
theorem claim_C9 (env : Env) (cfg : Config) (cut : Option Int)
    (hnet : env.network_available = true)
    (hm : cfg.methods.all (fun s => methods_list.contains s) = true)
    (hcred : (!cfg.use_keyring && !(truthy cfg.api_key || truthy cfg.user_id)) = false)
    (hop : cfg.files.any (fun i => startsWithHyphen i) = false)
    (hcut : afterCutoff env cfg.after_date = Except.ok cut)
    (hempty : preflightFiles env cfg = []) :
    gatherFiles env cfg.files =
      (cfg.files.flatMap (operandFiles env), cfg.files.flatMap (operandEvents env)) ∧
    (preflight env cfg).2 =
      Except.error ⟨ExcType.cannotProceed, ExitCode.bad_arg, "No PDF files to process; quitting."⟩ ∧
    ((zuppaMain env cfg).2.all (fun e => !e.isProcessing)) = true := by
  have hc1 : (!env.network_available) = false := by rw [hnet]; rfl
  have hc2 : (!(cfg.methods.all fun s => methods_list.contains s)) = false := by
    rw [hm]; rfl
  have hp : preflight env cfg =
      (Event.networkCheck :: zoteroStoreEvents cfg.use_keyring ++ (gatherFiles env cfg.files).2
         ++ cutStatEvents cfg cut
         ++ [Event.alertFatal "No PDF files to process; quitting."],
       Except.error ⟨ExcType.cannotProceed, ExitCode.bad_arg, "No PDF files to process; quitting."⟩) := by
    cases cut with
    | none =>
      have hemp : (gatherFiles env cfg.files).1 = [] := by
        simpa [preflightFiles, hcut] using hempty
      simp only [preflight, hc1, hc2, hcred, hop, Bool.false_eq_true, if_false, hcut]
      simp [hemp, cutStatEvents]
    | some c =>
      have hemp : dateFilter env c cfg.files = [] := by
        simpa [preflightFiles, hcut] using hempty
      simp only [preflight, hc1, hc2, hcred, hop, Bool.false_eq_true, if_false, hcut]
      simp [hemp, cutStatEvents]
  have h1 : ((zoteroStoreEvents cfg.use_keyring).all (fun e => !e.isProcessing)) = true := by
    cases cfg.use_keyring <;> rfl
  have h2 := gather_events_safe env cfg.files
  have h3 : ((cutStatEvents cfg cut).all (fun e => !e.isProcessing)) = true := by
    cases cut with
    | none => rfl
    | some c => simp [cutStatEvents, List.all_map, Event.isProcessing, Function.comp]
  have hsafe : ((preflight env cfg).1.all (fun e => !e.isProcessing)) = true := by
    rw [hp]
    simp only [List.all_append, List.all_cons]
    rw [h1, h2, h3]
    rfl
  refine ⟨gatherFiles_eq env cfg.files, by rw [hp], ?_⟩
  cases hi : initWriters cfg.methods with
  | error e =>
    have hz : (zuppaMain env cfg).2 = (mainTail (some e)).2 := by
      simp [zuppaMain, mainBodyRun, hi]
    rw [hz]
    exact mainTail_events_safe (some e)
  | ok ws =>
    have hz : (zuppaMain env cfg).2 = (preflight env cfg).1 := by
      simp [zuppaMain, mainBodyRun, hi, hp, mainTail]
    rw [hz]
    exact hsafe

/-- Claim C9, witness: the theorem applied to the concrete run whose only
operand is neither a PDF file nor a directory, so that discovery is empty
and preflight aborts with the bad-argument condition. -/
theorem claim_C9_witness :
    gatherFiles envTriv cfgNoPdf.files =
      (cfgNoPdf.files.flatMap (operandFiles envTriv),
       cfgNoPdf.files.flatMap (operandEvents envTriv)) ∧
    (preflight envTriv cfgNoPdf).2 =
      Except.error ⟨ExcType.cannotProceed, ExitCode.bad_arg, "No PDF files to process; quitting."⟩ ∧
    ((zuppaMain envTriv cfgNoPdf).2.all (fun e => !e.isProcessing)) = true :=
  claim_C9 envTriv cfgNoPdf none rfl (by decide) rfl (by decide) rfl rfl

/-- Claim C10: PDFProducer does not override the abstract members
description and write_link of the WriterMethod base class, so instantiating
it raises TypeError; hence every run whose method list includes pdfproducer
exits with the generic-exception exit code 6, the failure arising during
orchestrator construction before preflight emits any event. -/
theorem claim_C10 (env : Env) (cfg : Config)
    (h : cfg.methods.contains "pdfproducer" = true) :
    instantiate MethodClass.pdfProducer =
      Except.error ⟨ExcType.typeError, 0, "abstract methods not implemented"⟩ ∧
    (zuppaMain env cfg).1 = ExitCode.exception ∧
    (mainBodyRun env cfg).2 = [] := by
  have hmem : "pdfproducer" ∈ cfg.methods := List.mem_of_elem_eq_true h
  have hany : cfg.methods.any initStepFails = true :=
    List.any_eq_true.mpr ⟨"pdfproducer", hmem, by decide⟩
  rcases initWriters_error cfg.methods hany with ⟨e, he, hty⟩
  have hbody : mainBodyRun env cfg = (some e, []) := by
    simp [mainBodyRun, he]
  have hne1 : ¬e.ty = ExcType.cannotProceed := by
    rcases hty with h1 | h1 <;> simp [h1]
  have hne2 : ¬(e.ty = ExcType.keyboardInterrupt ∨ e.ty = ExcType.userCancelled) := by
    rcases hty with h1 | h1 <;> simp [h1]
  have hall : zuppaMain env cfg = (ExitCode.exception, [Event.alertError e.msg]) := by
    simp [zuppaMain, hbody, mainTail, hne1, hne2]
  refine ⟨rfl, ?_, ?_⟩
  · rw [hall]
  · rw [hbody]

/-- Claim C10, witness: the theorem applied to the concrete run whose
requested method list is ["pdfproducer"]. -/
theorem claim_C10_witness :
    instantiate MethodClass.pdfProducer =
      Except.error ⟨ExcType.typeError, 0, "abstract methods not implemented"⟩ ∧
    (zuppaMain envTriv cfgPdfProd).1 = ExitCode.exception ∧
    (mainBodyRun envTriv cfgPdfProd).2 = [] :=
  claim_C10 envTriv cfgPdfProd (by decide)

end Zuppa
